import Mathlib

/-!
Verification of the OpenTrace graph-layout and highlight-overlay engine.

The embedded code is the layout module (`applyDagreLayout`, `getLayoutedElements`,
`NODE_WIDTH`, `NODE_HEIGHT`) and the highlight projection of the flow-canvas
component (`styledNodes`, `styledEdges`).  The third-party dagre library is not
repository code; it is modelled abstractly as a total, deterministic positioning
function (`DagreModel`) over the graph value that the repository code builds
through the graphlib mutators `setGraph` / `setNode` / `setEdge`, whose
semantics (in particular the implicit creation of edge endpoints that were
never `setNode`-ed) are embedded concretely.

JavaScript numbers are modelled as rationals, `T | undefined` optional fields
as `Option`, and the truthiness-based `a || b` idiom as explicit functions.
-/

/-- Dynamic (TypeScript `unknown`) tag values carried by a span node. -/
inductive TagValue where
  | str (s : String)
  | num (q : Rat)
  | boolean (b : Bool)
  | null
deriving DecidableEq, Repr

/-- Span status: the TypeScript union `'success' | 'error'`. -/
inductive SpanStatus where
  | success
  | error
deriving DecidableEq, Repr

/-- Payload of a span node (TypeScript interface `NodeData`). -/
structure NodeData where
  spanId : String
  operationName : String
  serviceName : String
  duration : Rat
  startTime : Rat
  status : SpanStatus
  tags : List (String × TagValue)
  highlighted : Option Bool
deriving DecidableEq, Repr

/-- A 2-D coordinate, as in `position: { x: number; y: number }`. -/
structure Point where
  x : Rat
  y : Rat
deriving DecidableEq, Repr

/-- A graph node (TypeScript interface `FlowNode`). -/
structure FlowNode where
  id : String
  type : String
  position : Point
  data : NodeData
deriving DecidableEq, Repr

/-- Per-edge metadata (TypeScript interface `EdgeData`). -/
structure EdgeData where
  type : String
  latencyMs : Option Rat
deriving DecidableEq, Repr

/-- A graph edge (TypeScript interface `FlowEdge`). -/
structure FlowEdge where
  id : String
  source : String
  target : String
  data : Option EdgeData
  animated : Option Bool
deriving DecidableEq, Repr

/-- Fixed logical node width used by the layout (layout.ts `NODE_WIDTH`). -/
def NODE_WIDTH : Rat := 220

/-- Fixed logical node height used by the layout (layout.ts `NODE_HEIGHT`). -/
def NODE_HEIGHT : Rat := 80

/-- Layout direction: the TypeScript union `'TB' | 'LR' | 'BT' | 'RL'`. -/
inductive Direction where
  | TB
  | LR
  | BT
  | RL
deriving DecidableEq, Repr

/-- Layout options (layout.ts interface `LayoutOptions`); every field optional. -/
structure LayoutOptions where
  direction : Option Direction := none
  nodeSpacing : Option Rat := none
  rankSpacing : Option Rat := none
deriving DecidableEq, Repr

/-- The graph-level configuration passed to `dagreGraph.setGraph`. -/
structure DagreConfig where
  rankdir : Direction
  nodesep : Rat
  ranksep : Rat
  marginx : Rat
  marginy : Rat
deriving DecidableEq, Repr

/-- The label stored for a node by `dagreGraph.setNode`. -/
structure DagreNodeLabel where
  width : Rat
  height : Rat
deriving DecidableEq, Repr

/-- The graphlib graph value mutated by layout.ts before calling `dagre.layout`.
Nodes are kept in insertion order; a node created implicitly by `setEdge`
carries no label (`none`), exactly as graphlib leaves its default label
`undefined` on such nodes. -/
structure DagreGraph where
  config : Option DagreConfig
  nodes : List (String × Option DagreNodeLabel)
  edges : List (String × String)
deriving DecidableEq, Repr

/-- The fresh graph produced by `new dagre.graphlib.Graph()`. -/
def DagreGraph.empty : DagreGraph := ⟨none, [], []⟩

/-- Model of `dagreGraph.setGraph(cfg)`. -/
def DagreGraph.setGraph (g : DagreGraph) (cfg : DagreConfig) : DagreGraph :=
  { g with config := some cfg }

/-- Whether the graph already has a node with the given id. -/
def DagreGraph.hasNode (g : DagreGraph) (v : String) : Bool :=
  (g.nodes.map Prod.fst).contains v

/-- Model of graphlib `setNode(v, label)`: update the label in place if the
node exists, otherwise append it. -/
def DagreGraph.setNode (g : DagreGraph) (v : String) (l : DagreNodeLabel) : DagreGraph :=
  if g.hasNode v then
    { g with nodes := g.nodes.map fun p => if p.1 = v then (v, some l) else p }
  else
    { g with nodes := g.nodes ++ [(v, some l)] }

/-- Graphlib creates a referenced-but-missing endpoint with the default node
label (`undefined`) rather than failing. -/
def DagreGraph.ensureNode (g : DagreGraph) (v : String) : DagreGraph :=
  if g.hasNode v then g else { g with nodes := g.nodes ++ [(v, none)] }

/-- Model of graphlib `setEdge(v, w)` on a non-multigraph: both endpoints are
created if missing, and the edge is recorded once. -/
def DagreGraph.setEdge (g : DagreGraph) (v w : String) : DagreGraph :=
  let g' := (g.ensureNode v).ensureNode w
  if g'.edges.contains (v, w) then g' else { g' with edges := g'.edges ++ [(v, w)] }

/-- Abstract model of the external dagre library (a dependency, not repository
code): a total, deterministic function assigning a center point to every node
id of a built graph.  dagre is a pure synchronous algorithm with no random
tie-breaking; on graphs built by layout.ts it completes without error, because
graphlib silently creates missing edge endpoints and dagre substitutes the
default 0-by-0 size for their undefined labels. -/
def DagreModel : Type := DagreGraph → String → Point

/-- Spec-facing error taxonomy (the spec names ReferentialIntegrityError and
InvalidConfiguration).  No such errors exist anywhere in the repository source;
the codomain of the embedded layout call uses this type so that the spec's
failure claims are statable, and the source-translated body never produces an
error value. -/
inductive LayoutError where
  | referentialIntegrity
  | invalidConfiguration
deriving DecidableEq, Repr

/-- The dagre graph that layout.ts builds: `setGraph` with direction, spacings
and a 20-pixel margin, then `setNode(node.id, {width, height})` for each node
in input order, then `setEdge(edge.source, edge.target)` for each edge. -/
def buildDagreGraph (nodes : List FlowNode) (edges : List FlowEdge)
    (direction : Direction) (nodeSpacing rankSpacing : Rat) : DagreGraph :=
  let g1 := DagreGraph.empty.setGraph
    { rankdir := direction, nodesep := nodeSpacing, ranksep := rankSpacing
      marginx := 20, marginy := 20 }
  let g2 := nodes.foldl (fun g n => g.setNode n.id ⟨NODE_WIDTH, NODE_HEIGHT⟩) g1
  edges.foldl (fun g e => g.setEdge e.source e.target) g2

/-- The per-node position write-back of layout.ts: read the node's center
from the laid-out dagre graph and convert it to a top-left corner by
subtracting half the fixed footprint on each axis. -/
def positionNode (dagre : DagreModel) (g : DagreGraph) (node : FlowNode) : FlowNode :=
  let nodeWithPosition := dagre g node.id
  { node with position :=
      { x := nodeWithPosition.x - NODE_WIDTH / 2
        y := nodeWithPosition.y - NODE_HEIGHT / 2 } }

/-- Embedding of `applyDagreLayout` (layout.ts): destructure the options with
defaults TB / 50 / 80, build the dagre graph, run the dagre layout, and map
every input node to a copy with its position filled in, returning the edge
list untouched.  The source contains no validation and no throw; the result
is always `Except.ok`. -/
def applyDagreLayout (dagre : DagreModel) (nodes : List FlowNode)
    (edges : List FlowEdge) (options : LayoutOptions := {}) :
    Except LayoutError (List FlowNode × List FlowEdge) :=
  let direction := options.direction.getD Direction.TB
  let nodeSpacing := options.nodeSpacing.getD 50
  let rankSpacing := options.rankSpacing.getD 80
  let dagreGraph := buildDagreGraph nodes edges direction nodeSpacing rankSpacing
  let layoutedNodes := nodes.map (positionNode dagre dagreGraph)
  Except.ok (layoutedNodes, edges)

/-- Embedding of `getLayoutedElements` (layout.ts): delegate to
`applyDagreLayout` with only the direction set.  The source narrows the
direction parameter to the union `'TB' | 'LR'`, with default TB. -/
def getLayoutedElements (dagre : DagreModel) (nodes : List FlowNode)
    (edges : List FlowEdge) (direction : Direction := Direction.TB) :
    Except LayoutError (List FlowNode × List FlowEdge) :=
  applyDagreLayout dagre nodes edges { direction := some direction }

/-- JavaScript `a || b` where `a` is a string and the empty string is falsy;
used by the flow canvas for `node.type || 'span'`. -/
def jsOrString (a b : String) : String :=
  if a = "" then b else a

/-- JavaScript `a || b` where `a` is a boolean expression and `b` is a
possibly-undefined boolean; used by the flow canvas for
`highlightedEdges.includes(edge.id) || edge.animated`. -/
def jsOrBool (a : Bool) (b : Option Bool) : Option Bool :=
  if a then some true else b

/-- The stroke styling carried on a rendered edge. -/
structure EdgeStyle where
  stroke : String
  strokeWidth : Rat
deriving DecidableEq, Repr

/-- A rendered node (ReactFlow `Node<NodeData>` as used by FlowCanvas). -/
structure RFNode where
  id : String
  type : String
  position : Point
  data : NodeData
deriving DecidableEq, Repr

/-- A rendered edge (ReactFlow `Edge` as built by FlowCanvas, restricted to
the fields the component reads and writes). -/
structure RFEdge where
  id : String
  source : String
  target : String
  animated : Option Bool
  style : EdgeStyle
deriving DecidableEq, Repr

/-- FlowCanvas conversion of a layouted node to ReactFlow form
(`type: node.type || 'span'`). -/
def toRFNode (node : FlowNode) : RFNode :=
  { id := node.id
    type := jsOrString node.type "span"
    position := node.position
    data := node.data }

/-- FlowCanvas conversion of a layouted edge to ReactFlow form, attaching the
base style with stroke color 30363d and width 2. -/
def toRFEdge (edge : FlowEdge) : RFEdge :=
  { id := edge.id
    source := edge.source
    target := edge.target
    animated := edge.animated
    style := { stroke := "#30363d", strokeWidth := 2 } }

/-- Per-node body of the `styledNodes` projection of FlowCanvas: spread the
node, overriding `data.highlighted` with membership in the highlighted-node
id list. -/
def styleNode (highlightedNodes : List String) (node : RFNode) : RFNode :=
  { node with data := { node.data with highlighted := some (highlightedNodes.contains node.id) } }

/-- The `styledNodes` projection of FlowCanvas (a `useMemo` over the node
state and the highlighted-node id list). -/
def styledNodes (highlightedNodes : List String) (nodes : List RFNode) : List RFNode :=
  nodes.map (styleNode highlightedNodes)

/-- Per-edge body of the `styledEdges` projection of FlowCanvas: spread the
edge, overriding the stroke color and width according to membership in the
highlighted-edge id list, and setting `animated` to
`highlightedEdges.includes(edge.id) || edge.animated`. -/
def styleEdge (highlightedEdges : List String) (edge : RFEdge) : RFEdge :=
  { edge with
      style :=
        { stroke := if highlightedEdges.contains edge.id then "#d29922" else "#30363d"
          strokeWidth := if highlightedEdges.contains edge.id then 3 else 2 }
      animated := jsOrBool (highlightedEdges.contains edge.id) edge.animated }

/-- The `styledEdges` projection of FlowCanvas (a `useMemo` over the edge
state and the highlighted-edge id list). -/
def styledEdges (highlightedEdges : List String) (edges : List RFEdge) : List RFEdge :=
  edges.map (styleEdge highlightedEdges)

/-- A highlight set: the two independent id lists FlowCanvas receives
(`highlightedNodes`, `highlightedEdges`). -/
structure HighlightSet where
  highlightedNodeIds : List String
  highlightedEdgeIds : List String
deriving DecidableEq, Repr

/-- The full highlight overlay of FlowCanvas: the pair of the `styledNodes`
and `styledEdges` projections applied to a positioned graph. -/
def applyHighlight (g : List RFNode × List RFEdge) (H : HighlightSet) :
    List RFNode × List RFEdge :=
  (styledNodes H.highlightedNodeIds g.1, styledEdges H.highlightedEdgeIds g.2)

/-- A concrete node payload used for witnesses and counterexamples. -/
def sampleData : NodeData :=
  { spanId := "s1", operationName := "op", serviceName := "svc"
    duration := 5, startTime := 0, status := SpanStatus.success
    tags := [], highlighted := none }

/-- A concrete input node with id a. -/
def nodeA : FlowNode :=
  { id := "a", type := "span", position := ⟨0, 0⟩, data := sampleData }

/-- A concrete edge whose target id b names no node in the one-node list. -/
def edgeAB : FlowEdge :=
  { id := "e1", source := "a", target := "b", data := none, animated := none }

/-- A concrete instantiation of the dagre model that centers every node at
the origin; used to evaluate the embedded layout on concrete inputs. -/
def constDagre : DagreModel := fun _ _ => ⟨0, 0⟩

/-- A concrete rendered node with id a. -/
def rfNodeA : RFNode :=
  { id := "a", type := "span", position := ⟨3, 4⟩, data := sampleData }

/-- A concrete rendered edge with a pre-existing animated flag set to true. -/
def rfEdgeAnimated : RFEdge :=
  { id := "e1", source := "a", target := "b", animated := some true
    style := { stroke := "#30363d", strokeWidth := 2 } }

/-- Erase a node's position; used to compare layout output with its input
modulo the one field the layout is allowed to change. -/
def clearPosition (n : FlowNode) : FlowNode :=
  { n with position := ⟨0, 0⟩ }

theorem DagreGraph.config_setNode (g : DagreGraph) (v : String) (l : DagreNodeLabel) :
    (g.setNode v l).config = g.config := by
  unfold DagreGraph.setNode
  split <;> rfl

theorem DagreGraph.config_ensureNode (g : DagreGraph) (v : String) :
    (g.ensureNode v).config = g.config := by
  unfold DagreGraph.ensureNode
  split <;> rfl

theorem DagreGraph.config_setEdge (g : DagreGraph) (v w : String) :
    (g.setEdge v w).config = g.config := by
  by_cases h : (v, w) ∈ ((g.ensureNode v).ensureNode w).edges <;>
    simp [DagreGraph.setEdge, h, DagreGraph.config_ensureNode]

theorem config_foldl_setNode (l : List FlowNode) (g : DagreGraph) :
    (l.foldl (fun g n => g.setNode n.id ⟨NODE_WIDTH, NODE_HEIGHT⟩) g).config = g.config := by
  induction l generalizing g with
  | nil => rfl
  | cons n l ih => rw [List.foldl_cons, ih, DagreGraph.config_setNode]

theorem config_foldl_setEdge (l : List FlowEdge) (g : DagreGraph) :
    (l.foldl (fun g e => g.setEdge e.source e.target) g).config = g.config := by
  induction l generalizing g with
  | nil => rfl
  | cons e l ih => rw [List.foldl_cons, ih, DagreGraph.config_setEdge]

theorem buildDagreGraph_config (nodes : List FlowNode) (edges : List FlowEdge)
    (direction : Direction) (nodeSpacing rankSpacing : Rat) :
    (buildDagreGraph nodes edges direction nodeSpacing rankSpacing).config =
      some { rankdir := direction, nodesep := nodeSpacing, ranksep := rankSpacing
             marginx := 20, marginy := 20 } := by
  unfold buildDagreGraph
  rw [config_foldl_setEdge, config_foldl_setNode]
  rfl

/-- C1 counterexample: with a single node of id a and an edge whose target id
b occurs in no node, the layout call does not fail with any error; it returns
an ok result in which the input node has received a position.  This refutes
the claim that such an input fails with a ReferentialIntegrityError and that
no node of the input receives a position. -/
theorem layout_missing_endpoint_cex :
    ([nodeA].map FlowNode.id).contains edgeAB.target = false ∧
    applyDagreLayout constDagre [nodeA] [edgeAB] {} =
      Except.ok ([{ nodeA with position := ⟨-110, -40⟩ }], [edgeAB]) := by
  refine ⟨by decide, ?_⟩
  norm_num [applyDagreLayout, positionNode, constDagre, NODE_WIDTH, NODE_HEIGHT, nodeA]

/-- C1 (amended): the layout call performs no referential-integrity check.
Even when some edge has a source or target id absent from the node ids, the
call succeeds (the intermediate dagre graph merely gains an implicitly
created endpoint) and the output positions exactly the input's nodes. -/
theorem layout_no_referential_check (dagre : DagreModel) (nodes : List FlowNode)
    (edges : List FlowEdge) (options : LayoutOptions)
    (_h : ∃ e ∈ edges, (nodes.map FlowNode.id).contains e.source = false ∨
        (nodes.map FlowNode.id).contains e.target = false) :
    (applyDagreLayout dagre nodes edges options).map (fun out => out.1.length) =
      Except.ok nodes.length := by
  simp [applyDagreLayout, Except.map]

/-- Witness for the amended C1 at the concrete one-node, one-dangling-edge
input. -/
theorem layout_no_referential_check_witness :
    (applyDagreLayout constDagre [nodeA] [edgeAB] {}).map (fun out => out.1.length) =
      Except.ok ([nodeA].length) :=
  layout_no_referential_check constDagre [nodeA] [edgeAB] {}
    ⟨edgeAB, by decide, Or.inr (by decide)⟩

/-- C2: the layout call is deterministic.  Two calls on equal node lists,
equal edge lists and equal options (against the same deterministic dagre
library) return equal results, coordinates included; the embedded computation
reads no ambient state. -/
theorem layout_deterministic (dagre : DagreModel)
    (nodes1 : List FlowNode) (edges1 : List FlowEdge) (options1 : LayoutOptions)
    (nodes2 : List FlowNode) (edges2 : List FlowEdge) (options2 : LayoutOptions)
    (hn : nodes1 = nodes2) (he : edges1 = edges2) (ho : options1 = options2) :
    applyDagreLayout dagre nodes1 edges1 options1 =
      applyDagreLayout dagre nodes2 edges2 options2 := by
  rw [hn, he, ho]

/-- Witness for C2 at a concrete input. -/
theorem layout_deterministic_witness :
    applyDagreLayout constDagre [nodeA] [edgeAB] {} =
      applyDagreLayout constDagre [nodeA] [edgeAB] {} :=
  layout_deterministic constDagre [nodeA] [edgeAB] {} [nodeA] [edgeAB] {} rfl rfl rfl

/-- C3 counterexample: with a non-positive nodeSpacing of -5 the layout call
does not fail fast with an InvalidConfiguration error; it runs to completion
and returns an ok result. -/
theorem layout_nonpositive_spacing_cex :
    ((-5 : Rat) ≤ 0) ∧
    applyDagreLayout constDagre [nodeA] [] { nodeSpacing := some (-5) } =
      Except.ok ([{ nodeA with position := ⟨-110, -40⟩ }], []) := by
  refine ⟨by norm_num, ?_⟩
  norm_num [applyDagreLayout, positionNode, constDagre, NODE_WIDTH, NODE_HEIGHT, nodeA]

/-- C3 (amended): the layout call validates nothing.  Non-positive spacing
values are accepted: the call still succeeds, and the destructured options
(with defaults for omitted fields) are written verbatim into the dagre graph
configuration.  An out-of-range direction is not even expressible, the
parameter being typed by the four-constant union. -/
theorem layout_no_config_validation (dagre : DagreModel) (nodes : List FlowNode)
    (edges : List FlowEdge) (options : LayoutOptions)
    (_h : options.nodeSpacing.getD 50 ≤ 0 ∨ options.rankSpacing.getD 80 ≤ 0) :
    (applyDagreLayout dagre nodes edges options).isOk = true ∧
    (buildDagreGraph nodes edges (options.direction.getD Direction.TB)
        (options.nodeSpacing.getD 50) (options.rankSpacing.getD 80)).config =
      some { rankdir := options.direction.getD Direction.TB
             nodesep := options.nodeSpacing.getD 50
             ranksep := options.rankSpacing.getD 80
             marginx := 20, marginy := 20 } :=
  ⟨rfl, buildDagreGraph_config nodes edges (options.direction.getD Direction.TB)
    (options.nodeSpacing.getD 50) (options.rankSpacing.getD 80)⟩

/-- Witness for the amended C3 at a concrete input with nodeSpacing -5. -/
theorem layout_no_config_validation_witness :
    (applyDagreLayout constDagre [nodeA] [] { nodeSpacing := some (-5) }).isOk = true ∧
    (buildDagreGraph [nodeA] [] Direction.TB (-5) 80).config =
      some { rankdir := Direction.TB, nodesep := -5, ranksep := 80
             marginx := 20, marginy := 20 } :=
  layout_no_config_validation constDagre [nodeA] [] { nodeSpacing := some (-5) }
    (Or.inl (by norm_num))

/-- C4: the layout call always succeeds and is a frame over positions: erasing
positions on both sides, the output node list is the input node list (same
length, same order, id, type and data verbatim), and the edge list is returned
unchanged.  The input itself is immutable in this embedding, matching the
source, which builds the output nodes with an object spread. -/
theorem layout_frame (dagre : DagreModel) (nodes : List FlowNode)
    (edges : List FlowEdge) (options : LayoutOptions) :
    (applyDagreLayout dagre nodes edges options).map
        (fun out => (out.1.map clearPosition, out.2)) =
      Except.ok (nodes.map clearPosition, edges) := by
  show Except.ok ((nodes.map _).map clearPosition, edges) = _
  rw [List.map_map]
  rfl

/-- C5: the position of every output node is the top-left corner derived from
the dagre-computed center of that node by subtracting half the fixed footprint
(width 220, height 80) on each axis: the output position lists equals the
input list mapped to center minus (NODE_WIDTH / 2, NODE_HEIGHT / 2). -/
theorem layout_topleft_centering (dagre : DagreModel) (nodes : List FlowNode)
    (edges : List FlowEdge) (options : LayoutOptions) :
    (applyDagreLayout dagre nodes edges options).map (fun out => out.1.map FlowNode.position) =
      Except.ok (nodes.map fun n =>
        let center := dagre (buildDagreGraph nodes edges (options.direction.getD Direction.TB)
          (options.nodeSpacing.getD 50) (options.rankSpacing.getD 80)) n.id
        { x := center.x - NODE_WIDTH / 2, y := center.y - NODE_HEIGHT / 2 }) := by
  show Except.ok ((nodes.map _).map FlowNode.position) = _
  rw [List.map_map]
  rfl

/-- C6: omitted option fields behave exactly as the documented defaults: the
optionless call equals the call with direction TB, nodeSpacing 50 and
rankSpacing 80, and in general any options value behaves as its completion
where every omitted field is replaced by its default. -/
theorem layout_option_defaults (dagre : DagreModel) (nodes : List FlowNode)
    (edges : List FlowEdge) (options : LayoutOptions) :
    applyDagreLayout dagre nodes edges {} =
      applyDagreLayout dagre nodes edges
        { direction := some Direction.TB, nodeSpacing := some 50, rankSpacing := some 80 } ∧
    applyDagreLayout dagre nodes edges options =
      applyDagreLayout dagre nodes edges
        { direction := some (options.direction.getD Direction.TB)
          nodeSpacing := some (options.nodeSpacing.getD 50)
          rankSpacing := some (options.rankSpacing.getD 80) } :=
  ⟨rfl, rfl⟩

/-- C10: the convenience entry point equals the general one: for a direction
in the narrowed TB / LR union, getLayoutedElements is exactly applyDagreLayout
with only the direction option set. -/
theorem getLayoutedElements_refines (dagre : DagreModel) (nodes : List FlowNode)
    (edges : List FlowEdge) (direction : Direction)
    (_h : direction = Direction.TB ∨ direction = Direction.LR) :
    getLayoutedElements dagre nodes edges direction =
      applyDagreLayout dagre nodes edges { direction := some direction } :=
  rfl

/-- Witness for C10 at direction TB on a concrete input. -/
theorem getLayoutedElements_refines_witness :
    getLayoutedElements constDagre [nodeA] [edgeAB] Direction.TB =
      applyDagreLayout constDagre [nodeA] [edgeAB] { direction := some Direction.TB } :=
  getLayoutedElements_refines constDagre [nodeA] [edgeAB] Direction.TB (Or.inl rfl)

theorem styleNode_idem (hl : List String) (n : RFNode) :
    styleNode hl (styleNode hl n) = styleNode hl n :=
  rfl

theorem jsOrBool_idem (a : Bool) (b : Option Bool) :
    jsOrBool a (jsOrBool a b) = jsOrBool a b := by
  cases a <;> rfl

theorem styleEdge_idem (hl : List String) (e : RFEdge) :
    styleEdge hl (styleEdge hl e) = styleEdge hl e := by
  unfold styleEdge
  by_cases h : e.id ∈ hl <;> simp [h, jsOrBool]

theorem styleNode_comp_self (hl : List String) :
    styleNode hl ∘ styleNode hl = styleNode hl :=
  funext fun n => styleNode_idem hl n

theorem styleEdge_comp_self (hl : List String) :
    styleEdge hl ∘ styleEdge hl = styleEdge hl :=
  funext fun e => styleEdge_idem hl e

/-- C7: with both highlight id lists empty, the overlay is observably a no-op:
every node keeps its id, type, position and payload verbatim, with only the
highlighted flag written (to false), and every edge keeps its id, endpoints
and animated flag verbatim, carrying the un-emphasized base style (stroke
color 30363d, width 2). -/
theorem highlight_empty_noop (nodes : List RFNode) (edges : List RFEdge) :
    styledNodes [] nodes =
      nodes.map (fun n => { n with data := { n.data with highlighted := some false } }) ∧
    styledEdges [] edges =
      edges.map (fun e => { e with style := { stroke := "#30363d", strokeWidth := 2 } }) :=
  ⟨rfl, rfl⟩

/-- C8: the overlay computes each output edge's animated flag as the
JavaScript disjunction of membership in the highlighted-edge id list with the
edge's own (possibly undefined) animated flag: the flag is true exactly when
the edge is highlighted or already carried animated true, so a pre-existing
animated flag survives even on unhighlighted edges. -/
theorem styledEdges_animated_or (highlightedEdges : List String) (edges : List RFEdge) :
    styledEdges highlightedEdges edges = edges.map (styleEdge highlightedEdges) ∧
    ∀ e : RFEdge,
      ((styleEdge highlightedEdges e).animated = some true ↔
        (highlightedEdges.contains e.id = true ∨ e.animated = some true)) := by
  refine ⟨rfl, fun e => ?_⟩
  unfold styleEdge jsOrBool
  by_cases h : e.id ∈ highlightedEdges <;> simp [h]

/-- C9: the highlight overlay is idempotent: applying it twice with the same
highlight set equals applying it once, on both the node and the edge
component. -/
theorem applyHighlight_idempotent (g : List RFNode × List RFEdge) (H : HighlightSet) :
    applyHighlight (applyHighlight g H) H = applyHighlight g H := by
  unfold applyHighlight styledNodes styledEdges
  rw [List.map_map, List.map_map, styleNode_comp_self, styleEdge_comp_self]
